import Mathlib

/-!
Verification of the authentication/session subsystem of the PostsWithAIComments
backend (src/src/endpoints/auth.py, src/src/services/auth.py,
src/src/repository/tokens.py, src/src/repository/users.py) against its
natural-language specification.

The Python code is shallowly embedded: database sessions become an explicit
`Db` state, `jose.jwt` tokens become a `Jwt` structure carrying the payload
and the signing key/algorithm, timestamps become `Int`, and every operation
that can raise becomes `Except PyErr`.
-/

set_option maxHeartbeats 1000000

namespace PostsAuth

/-- Decidable equality for `Except`, so that concrete handler results can be
evaluated by `decide`. -/
instance {ε α : Type} [DecidableEq ε] [DecidableEq α] : DecidableEq (Except ε α)
  | .ok a, .ok b =>
    if h : a = b then .isTrue (congrArg Except.ok h)
    else .isFalse (fun c => h (Except.ok.inj c))
  | .error a, .error b =>
    if h : a = b then .isTrue (congrArg Except.error h)
    else .isFalse (fun c => h (Except.error.inj c))
  | .ok _, .error _ => .isFalse (fun c => Except.noConfusion c)
  | .error _, .ok _ => .isFalse (fun c => Except.noConfusion c)

/-- Message constants referenced as `messages.*` in src/src/endpoints/auth.py.
The module `src/src/conf/messages.py` is absent from src/ (only its uses are
present); each distinct attribute name is modelled as a distinct constructor. -/
inductive Msg where
  | INVALID_EMAIL
  | EMAIL_NOT_CONFIRMED
  | INVALID_PASSWORD
  | USER_WAS_BANNED
  | INVALID_REFRESH_TOKEN
  | COULD_NOT_VALIDATE_CREDENTIALS
  | INVALID_SCOPE
  | VERIFICATION_ERROR
  | USER_NOT_FOUND
  | ACCOUNT_ALREADY_EXISTS
deriving DecidableEq, Repr

/-- Exceptions a handler can surface to its caller: `raise HTTPException(status_code, detail)`,
a Python `AttributeError` from evaluating `user.id` when `user` is `None`
(src/src/endpoints/auth.py:153), a `KeyError` from `payload["sub"]` on a payload
without a subject (src/src/services/auth.py:149), and passlib's
`UnknownHashError` raised by `CryptContext.verify` on an unidentifiable hash. -/
inductive PyErr where
  | http (status : Nat) (detail : Msg)
  | attributeErrorNoneId
  | keyError (key : String)
  | unknownHashError
deriving DecidableEq, Repr

/-- Modelled from the spec: the error taxonomy of spec §7 as it classifies the
concrete message constants raised by `login` (§4.4: absent user or password
mismatch ↦ InvalidCredentials, unconfirmed email ↦ EmailNotConfirmed, banned
user ↦ UserBanned; decode failures ↦ InvalidToken / InvalidScope). -/
inductive SpecError where
  | InvalidCredentials
  | EmailNotConfirmed
  | UserBanned
  | InvalidToken
  | InvalidScope
  | InvalidRefreshToken
  | VerificationError
  | UserNotFound
deriving DecidableEq, Repr

/-- Modelled from the spec: mapping from the login-path message constants to
the spec §7 taxonomy kinds. -/
def specTaxonomy : Msg → SpecError
  | .INVALID_EMAIL => .InvalidCredentials
  | .EMAIL_NOT_CONFIRMED => .EmailNotConfirmed
  | .INVALID_PASSWORD => .InvalidCredentials
  | .USER_WAS_BANNED => .UserBanned
  | .INVALID_REFRESH_TOKEN => .InvalidRefreshToken
  | .COULD_NOT_VALIDATE_CREDENTIALS => .InvalidToken
  | .INVALID_SCOPE => .InvalidScope
  | .VERIFICATION_ERROR => .VerificationError
  | .USER_NOT_FOUND => .UserNotFound
  | .ACCOUNT_ALREADY_EXISTS => .InvalidCredentials

/-- JWT payload as assembled in src/src/services/auth.py:97-102 and 122-127:
`sub` from the claims dict (absent if the dict had none), `iat`, `exp`, `scope`. -/
structure Payload where
  sub : Option String
  iat : Int
  exp : Int
  scope : String
deriving DecidableEq, Repr

/-- A token string as produced by `jwt.encode(payload, key, algorithm)`:
the encoding is deterministic and injective in (payload, key, alg), so a token
string is modelled by those three components. -/
structure Jwt where
  payload : Payload
  key : String
  alg : String
deriving DecidableEq, Repr

/-- Server secret, default of `Settings.secret_key` (src/src/conf/config.py:13). -/
def SECRET_KEY : String := "secret key"

/-- Signing algorithm, default of `Settings.algorithm` (src/src/conf/config.py:14). -/
def ALGORITHM : String := "HS256"

/-- Model of `jose.jwt.decode(token, key, algorithms=[alg])`: returns the payload
when the signing key and algorithm match and the token is not expired
(jose raises `ExpiredSignatureError`, a `JWTError`, precisely when `exp < now`);
`none` stands for a raised `JWTError`. -/
def jwtDecode (now : Int) (tok : Jwt) (key alg : String) : Option Payload :=
  if tok.key = key ∧ tok.alg = alg ∧ ¬(tok.payload.exp < now) then some tok.payload else none

/-- Python truthiness of the optional `expires_delta` argument:
`expires_delta or 60 * 60` yields the default when the argument is `None` or `0`. -/
def pyOrDefault (x : Option Int) (d : Int) : Int :=
  match x with
  | none => d
  | some v => if v = 0 then d else v

/-- AuthService.create_access_token (src/src/services/auth.py:82-106):
scope "access_token", default lifetime 60*60 seconds, `sub` from the data dict. -/
def create_access_token (now : Int) (sub : String) (expires_delta : Option Int) : Jwt :=
  { payload := { sub := some sub, iat := now, exp := now + pyOrDefault expires_delta (60 * 60),
                 scope := "access_token" },
    key := SECRET_KEY, alg := ALGORITHM }

/-- AuthService.create_refresh_token (src/src/services/auth.py:108-131):
scope "refresh_token", default lifetime 7*24*60*60 seconds. -/
def create_refresh_token (now : Int) (sub : String) (expires_delta : Option Int) : Jwt :=
  { payload := { sub := some sub, iat := now, exp := now + pyOrDefault expires_delta (7 * 24 * 60 * 60),
                 scope := "refresh_token" },
    key := SECRET_KEY, alg := ALGORITHM }

/-- AuthService.decode_refresh_token (src/src/services/auth.py:133-159):
`jwt.decode` (JWTError ↦ 401 COULD_NOT_VALIDATE_CREDENTIALS), then the scope
check (mismatch ↦ 401 INVALID_SCOPE), then `payload["sub"]` (KeyError if absent). -/
def decode_refresh_token (now : Int) (tok : Jwt) : Except PyErr String :=
  match jwtDecode now tok SECRET_KEY ALGORITHM with
  | none => .error (.http 401 .COULD_NOT_VALIDATE_CREDENTIALS)
  | some payload =>
    if payload.scope = "refresh_token" then
      match payload.sub with
      | some email => .ok email
      | none => .error (.keyError "sub")
    else .error (.http 401 .INVALID_SCOPE)

/-- Modelled from the spec: `token_manager.get_expire_date` is called in
src/src/endpoints/auth.py:81,87 but `token_manager` is defined nowhere under
src/. Spec §4.2 `expiry_of(token_string) -> timestamp`: extracts `exp` without
re-validating scope. -/
def get_expire_date (tok : Jwt) : Int :=
  tok.payload.exp

/-- Modelled from the spec: `token_manager.create_email_token` is called in
src/src/services/email.py:49,59 but `token_manager` is defined nowhere under
src/. Spec §3/§4.4: email/reset tokens carry scope "email_token", live 7 days,
and are minted through the same path for both flows. -/
def create_email_token (now : Int) (sub : String) : Jwt :=
  { payload := { sub := some sub, iat := now, exp := now + 7 * 24 * 60 * 60,
                 scope := "email_token" },
    key := SECRET_KEY, alg := ALGORITHM }

/-- Modelled from the spec: `token_manager.get_email_from_token` is called in
src/src/endpoints/auth.py:174,257 but `token_manager` is defined nowhere under
src/. Spec §4.2 decode: verifies signature and expiry (failure ↦ InvalidToken),
fails InvalidScope when the scope claim differs from the expected
"email_token", otherwise returns the subject. -/
def get_email_from_token (now : Int) (tok : Jwt) : Except PyErr String :=
  match jwtDecode now tok SECRET_KEY ALGORITHM with
  | none => .error (.http 401 .COULD_NOT_VALIDATE_CREDENTIALS)
  | some payload =>
    if payload.scope = "email_token" then
      match payload.sub with
      | some email => .ok email
      | none => .error (.keyError "sub")
    else .error (.http 401 .INVALID_SCOPE)

/-- A stored password hash as handled by passlib's `CryptContext(schemes=["bcrypt"])`:
either a well-formed bcrypt hash of some password with some salt, or a string
the context cannot identify as a hash. -/
inductive HashStr where
  | bcrypt (pwd : String) (salt : Nat)
  | malformed (s : String)
deriving DecidableEq, Repr

/-- PasswordManager.verify_password (src/src/services/auth.py:22-33): delegates
to `CryptContext.verify`, which returns whether the password matches a
well-formed hash and raises `UnknownHashError` on a hash it cannot identify;
the method installs no exception handler, so the error propagates. -/
def verify_password (plain : String) (hashed : HashStr) : Except PyErr Bool :=
  match hashed with
  | .bcrypt pwd _ => .ok (plain = pwd)
  | .malformed _ => .error .unknownHashError

/-- PasswordManager.get_password_hash (src/src/services/auth.py:35-44):
bcrypt hash of the password; the salt drawn by bcrypt is passed explicitly. -/
def get_password_hash (password : String) (salt : Nat) : HashStr :=
  .bcrypt password salt

/-- User row (src/src/database/models.py:18-31), restricted to the columns the
authentication handlers read or write. -/
structure User where
  id : Nat
  username : String
  email : String
  email_confirmed : Bool
  password : HashStr
  banned : Bool
deriving DecidableEq, Repr

/-- Token row (src/src/database/models.py:90-97): token string (primary key),
expiry, blocked flag, owning user id. -/
structure TokenRow where
  token : Jwt
  expires : Int
  blocked : Bool
  user_id : Nat
deriving DecidableEq, Repr

/-- The relational store reached through the repository classes: the `users`
and `tokens` tables. -/
structure Db where
  users : List User
  tokens : List TokenRow
deriving DecidableEq, Repr

/-- First row matching a predicate, as `select(...).filter_by(...)` followed by
`scalar_one_or_none` returns (the key columns used below are unique). -/
def findFirst {α : Type} (p : α → Prop) [DecidablePred p] : List α → Option α
  | [] => none
  | x :: xs => if p x then some x else findFirst p xs

/-- DBTokenRepository.get_token (src/src/repository/tokens.py:20-24). -/
def get_token (tok : Jwt) (db : Db) : Option TokenRow :=
  findFirst (fun r => r.token = tok) db.tokens

/-- DBTokenRepository.add_token (src/src/repository/tokens.py:13-18):
inserts the row and commits. -/
def add_token (row : TokenRow) (db : Db) : Db :=
  { db with tokens := db.tokens ++ [row] }

/-- Marks the first row holding the given token string as blocked. -/
def blockFirstToken (tok : Jwt) : List TokenRow → List TokenRow
  | [] => []
  | r :: rs => if r.token = tok then { r with blocked := true } :: rs
               else r :: blockFirstToken tok rs

/-- DBTokenRepository.block_token (src/src/repository/tokens.py:26-31):
looks the row up, sets `blocked = True` and commits; no-op when absent. -/
def block_token (tok : Jwt) (db : Db) : Db :=
  { db with tokens := blockFirstToken tok db.tokens }

/-- DBTokenRepository.block_user_tokens (src/src/repository/tokens.py:33-39):
sets `blocked = True` on every row owned by the user, then commits once. -/
def block_user_tokens (user_id : Nat) (db : Db) : Db :=
  let f : TokenRow → TokenRow :=
    fun r => if r.user_id = user_id then { r with blocked := true } else r
  { db with tokens := db.tokens.map f }

/-- DBTokenRepository.token_is_blocked (src/src/repository/tokens.py:41-45):
false for an unknown token. -/
def token_is_blocked (tok : Jwt) (db : Db) : Bool :=
  match get_token tok db with
  | none => false
  | some r => r.blocked

/-- DBTokenRepository.delete_expired (src/src/repository/tokens.py:47-51):
`delete(Token).where(Token.expires < now)`, then commit. The Python function
is annotated `-> None` and has no return statement, so its value is `None`;
the returned value is modelled as `Option Nat` (`none` = Python `None`) to
state the spec's claim about a returned count. -/
def delete_expired (now : Int) (db : Db) : Db × Option Nat :=
  ({ db with tokens := db.tokens.filter (fun r => ¬(r.expires < now)) }, none)

/-- DBUserRepository.get_user_by_email (src/src/repository/users.py:41-53). -/
def get_user_by_email (email : String) (db : Db) : Option User :=
  findFirst (fun u => u.email = email) db.users

/-- DBUserRepository.get_user_by_id (src/src/repository/users.py:55-66). -/
def get_user_by_id (user_id : Nat) (db : Db) : Option User :=
  findFirst (fun u => u.id = user_id) db.users

/-- DBUserRepository.confirm_email (src/src/repository/users.py:13-24):
sets `email_confirmed = True` on the user with that email, if any. -/
def confirm_email (email : String) (db : Db) : Db :=
  let f : User → User :=
    fun u => if u.email = email then { u with email_confirmed := true } else u
  { db with users := db.users.map f }

/-- DBUserRepository.update_password (src/src/repository/users.py:68-76):
sets the password hash on the user with that id, if any. -/
def update_password (user_id : Nat) (password : HashStr) (db : Db) : Db :=
  let f : User → User :=
    fun u => if u.id = user_id then { u with password := password } else u
  { db with users := db.users.map f }

/-- Session response shape (src/src/schemas/tokens.py TokenSchema). -/
structure TokenSchema where
  access_token : Jwt
  refresh_token : Jwt
  token_type : String
deriving DecidableEq, Repr

/-- Helper create_access_and_refresh_tokens (src/src/endpoints/auth.py:72-98):
mints the pair (both `expires_delta=None`), persists both rows via
`add_token` (access first), returns the bearer pair. -/
def create_access_and_refresh_tokens (now : Int) (user : User) (db : Db) :
    TokenSchema × Db :=
  let access := create_access_token now user.email none
  let refresh := create_refresh_token now user.email none
  let accessRow : TokenRow :=
    { token := access, expires := get_expire_date access, blocked := false, user_id := user.id }
  let refreshRow : TokenRow :=
    { token := refresh, expires := get_expire_date refresh, blocked := false, user_id := user.id }
  let db1 := add_token accessRow db
  let db2 := add_token refreshRow db1
  ({ access_token := access, refresh_token := refresh, token_type := "bearer" }, db2)

/-- Endpoint login (src/src/endpoints/auth.py:101-139): user lookup (absent ↦
401 INVALID_EMAIL), then the email-confirmed check (↦ 401 EMAIL_NOT_CONFIRMED),
then the password check (mismatch ↦ 401 INVALID_PASSWORD; an error raised by
`verify_password` propagates), then the banned check (↦ 403 USER_WAS_BANNED);
on success mints and persists the pair. The one-in-ten background
`delete_expired` scheduling (auth.py:134-137) is fire-and-forget and only ever
removes already-expired rows; it is outside this sequential state model. -/
def login (now : Int) (username password : String) (db : Db) :
    Except PyErr (TokenSchema × Db) :=
  match get_user_by_email username db with
  | none => .error (.http 401 .INVALID_EMAIL)
  | some user =>
    if ¬user.email_confirmed then .error (.http 401 .EMAIL_NOT_CONFIRMED)
    else
      match verify_password password user.password with
      | .error e => .error e
      | .ok ok =>
        if ¬ok then .error (.http 401 .INVALID_PASSWORD)
        else if user.banned then .error (.http 403 .USER_WAS_BANNED)
        else .ok (create_access_and_refresh_tokens now user db)

/-- Endpoint refresh_token (src/src/endpoints/auth.py:142-166): fetches the
stored row, decodes the presented token with scope "refresh_token", looks the
user up by the decoded email, then evaluates
`not db_token or db_token.blocked or db_token.user_id != user.id`
left to right — so `user.id` is dereferenced (AttributeError when `user` is
`None`) only when a stored, unblocked row exists; on the happy path blocks the
consumed token and mints/persists a fresh pair. -/
def refresh_token (now : Int) (tok : Jwt) (db : Db) :
    Except PyErr (TokenSchema × Db) :=
  let db_token := get_token tok db
  match decode_refresh_token now tok with
  | .error e => .error e
  | .ok user_email =>
    let user? := get_user_by_email user_email db
    match db_token with
    | none => .error (.http 401 .INVALID_REFRESH_TOKEN)
    | some row =>
      if row.blocked then .error (.http 401 .INVALID_REFRESH_TOKEN)
      else
        match user? with
        | none => .error .attributeErrorNoneId
        | some user =>
          if row.user_id ≠ user.id then .error (.http 401 .INVALID_REFRESH_TOKEN)
          else .ok (create_access_and_refresh_tokens now user (block_token tok db))

/-- Committed database states of the refresh-exchange success path, one entry
per `db.commit()` executed: `block_token` commits once
(src/src/repository/tokens.py:30), then each of the two `add_token` calls made
by create_access_and_refresh_tokens commits once (src/src/repository/tokens.py:16).
Every prefix of this sequence is a durable state of the store. -/
def refresh_commit_states (now : Int) (user : User) (tok : Jwt) (db : Db) : List Db :=
  let access := create_access_token now user.email none
  let refresh := create_refresh_token now user.email none
  let db1 := block_token tok db
  let db2 := add_token
    { token := access, expires := get_expire_date access, blocked := false, user_id := user.id } db1
  let db3 := add_token
    { token := refresh, expires := get_expire_date refresh, blocked := false, user_id := user.id } db2
  [db1, db2, db3]

/-- AuthService.get_current_user (src/src/services/auth.py:161-212): decodes the
bearer token (JWTError ↦ 401 COULD_NOT_VALIDATE_CREDENTIALS), requires scope
"access_token" and a present subject, then resolves the user by email. The
Token Store / Redis blocked check is commented out in the source
(src/src/services/auth.py:180-182), so no revocation check is performed. -/
def get_current_user (now : Int) (tok : Jwt) (db : Db) : Except PyErr User :=
  match jwtDecode now tok SECRET_KEY ALGORITHM with
  | none => .error (.http 401 .COULD_NOT_VALIDATE_CREDENTIALS)
  | some payload =>
    if payload.scope = "access_token" then
      match payload.sub with
      | none => .error (.http 401 .COULD_NOT_VALIDATE_CREDENTIALS)
      | some email =>
        match get_user_by_email email db with
        | none => .error (.http 401 .COULD_NOT_VALIDATE_CREDENTIALS)
        | some user => .ok user
    else .error (.http 401 .COULD_NOT_VALIDATE_CREDENTIALS)

/-- Endpoint logout (src/src/endpoints/auth.py:207-213): blocks every stored
token of the authenticated user. -/
def logout (current_user : User) (db : Db) : Db :=
  block_user_tokens current_user.id db

/-- Endpoint confirmed_email (src/src/endpoints/auth.py:169-182): decodes the
email token, 400 VERIFICATION_ERROR when the subject resolves to no user,
otherwise sets `email_confirmed = True`. -/
def confirmed_email (now : Int) (tok : Jwt) (db : Db) : Except PyErr Db :=
  match get_email_from_token now tok with
  | .error e => .error e
  | .ok email =>
    match get_user_by_email email db with
    | none => .error (.http 400 .VERIFICATION_ERROR)
    | some _ => .ok (confirm_email email db)

/-- Endpoint reset_password (src/src/endpoints/auth.py:231-248): 404
USER_NOT_FOUND when no user has the given email, otherwise schedules the reset
email and succeeds. -/
def reset_password (email : String) (db : Db) : Except PyErr String :=
  match get_user_by_email email db with
  | none => .error (.http 404 .USER_NOT_FOUND)
  | some _ => .ok "Check your email for password reset instructions."

/-- Endpoint reset_password_verified_email (src/src/endpoints/auth.py:251-270):
decodes the email token, 400 VERIFICATION_ERROR when the subject resolves to
no user, otherwise generates a fresh password (the random draw of
`get_new_password` and bcrypt's salt are passed explicitly), hashes and
persists it, and returns it for delivery. -/
def reset_password_verified_email (now : Int) (tok : Jwt) (new_password : String)
    (salt : Nat) (db : Db) : Except PyErr (String × Db) :=
  match get_email_from_token now tok with
  | .error e => .error e
  | .ok email =>
    match get_user_by_email email db with
    | none => .error (.http 400 .VERIFICATION_ERROR)
    | some user =>
      .ok (new_password, update_password user.id (get_password_hash new_password salt) db)

/-- Token minted by EmailService.send_reset_password_email
(src/src/services/email.py:58-66) for the password-reset flow. -/
def send_reset_password_email_token (now : Int) (user : User) : Jwt :=
  create_email_token now user.email

/-- Token minted by EmailService.send_verification_email
(src/src/services/email.py:48-56) for the confirm-email flow. -/
def send_verification_email_token (now : Int) (user : User) : Jwt :=
  create_email_token now user.email

/-- Store state after a successful refresh exchange on `tok`: the consumed
token blocked, then the fresh pair persisted. -/
def rotated_db (now : Int) (user : User) (tok : Jwt) (db : Db) : Db :=
  (create_access_and_refresh_tokens now user (block_token tok db)).2

/-- Concrete user for witnesses. -/
def alice : User :=
  { id := 1, username := "alice", email := "alice@example.com",
    email_confirmed := true, password := .bcrypt "correct" 0, banned := false }

/-- Store holding only alice, no tokens. -/
def dbW : Db := { users := [alice], tokens := [] }

/-- Refresh token issued to alice at time 100. -/
def R0w : Jwt := create_refresh_token 100 "alice@example.com" none

/-- Persisted row for R0w. -/
def rowW : TokenRow :=
  { token := R0w, expires := get_expire_date R0w, blocked := false, user_id := 1 }

/-- Store with alice and her persisted refresh token. -/
def dbRot : Db := { users := [alice], tokens := [rowW] }

/-- Store holding R0w's row but no user (the owning account was removed). -/
def dbOrphan : Db := { users := [], tokens := [rowW] }

/-- Access token issued to alice at time 100. -/
def tokA : Jwt := create_access_token 100 "alice@example.com" none

/-- Persisted row for tokA. -/
def rowA : TokenRow :=
  { token := tokA, expires := get_expire_date tokA, blocked := false, user_id := 1 }

/-- Store with alice and her persisted access token. -/
def dbC1 : Db := { users := [alice], tokens := [rowA] }

/-- Token row already expired at time 5. -/
def rowPast : TokenRow := { token := tokA, expires := 1, blocked := false, user_id := 1 }

/-- Token row still unexpired at time 5. -/
def rowFuture : TokenRow := { token := R0w, expires := 10, blocked := false, user_id := 1 }

/-- Store with one expired and one unexpired token row. -/
def dbSweep : Db := { users := [], tokens := [rowPast, rowFuture] }

theorem findFirst_append_none {α : Type} (p : α → Prop) [DecidablePred p]
    (l1 l2 : List α) (h : findFirst p l1 = none) :
    findFirst p (l1 ++ l2) = findFirst p l2 := by
  induction l1 with
  | nil => simp
  | cons x xs ih =>
    by_cases hx : p x
    · simp [findFirst, hx] at h
    · simp only [findFirst, hx, if_false, List.cons_append, if_neg hx] at h ⊢
      exact ih h

theorem findFirst_append_some {α : Type} (p : α → Prop) [DecidablePred p]
    (l1 l2 : List α) (r : α) (h : findFirst p l1 = some r) :
    findFirst p (l1 ++ l2) = some r := by
  induction l1 with
  | nil => simp [findFirst] at h
  | cons x xs ih =>
    by_cases hx : p x
    · simp only [findFirst, if_pos hx] at h
      simp only [List.cons_append, findFirst, if_pos hx, h]
    · simp only [findFirst, if_neg hx] at h
      simp only [List.cons_append, findFirst, if_neg hx]
      exact ih h

theorem findFirst_eq_none {α : Type} (p : α → Prop) [DecidablePred p]
    (l : List α) (h : ∀ x ∈ l, ¬ p x) : findFirst p l = none := by
  induction l with
  | nil => rfl
  | cons x xs ih =>
    simp only [findFirst, if_neg (h x (List.mem_cons_self x xs))]
    exact ih (fun y hy => h y (List.mem_cons_of_mem x hy))

theorem findFirst_map {α : Type} (f : α → α) (p : α → Prop) [DecidablePred p]
    (hf : ∀ x, p (f x) ↔ p x) (l : List α) :
    findFirst p (l.map f) = Option.map f (findFirst p l) := by
  induction l with
  | nil => rfl
  | cons x xs ih =>
    by_cases hx : p x
    · simp only [List.map_cons, findFirst, if_pos hx, if_pos ((hf x).mpr hx)]
      rfl
    · simp only [List.map_cons, findFirst, if_neg hx, if_neg (fun h => hx ((hf x).mp h))]
      exact ih

theorem blockFirstToken_findFirst (tok : Jwt) (l : List TokenRow) (row : TokenRow)
    (h : findFirst (fun r => r.token = tok) l = some row) :
    findFirst (fun r => r.token = tok) (blockFirstToken tok l) =
      some { row with blocked := true } := by
  induction l with
  | nil => simp [findFirst] at h
  | cons r rs ih =>
    by_cases hr : r.token = tok
    · simp only [findFirst, if_pos hr] at h
      cases h
      simp only [blockFirstToken, if_pos hr, findFirst]
    · simp only [findFirst, if_neg hr] at h
      simp only [blockFirstToken, if_neg hr, findFirst, if_neg hr]
      exact ih h

theorem blockFirstToken_preserves (tok : Jwt) (l : List TokenRow) (P : Jwt → Prop)
    (h : ∀ r ∈ l, P r.token) : ∀ r ∈ blockFirstToken tok l, P r.token := by
  induction l with
  | nil => intro r hr; simp [blockFirstToken] at hr
  | cons x xs ih =>
    intro r hr
    by_cases hx : x.token = tok
    · simp only [blockFirstToken, if_pos hx] at hr
      rcases List.mem_cons.mp hr with h1 | h1
      · subst h1; exact h x (List.mem_cons_self x xs)
      · exact h r (List.mem_cons_of_mem x h1)
    · simp only [blockFirstToken, if_neg hx] at hr
      rcases List.mem_cons.mp hr with h1 | h1
      · subst h1; exact h r (List.mem_cons_self r xs)
      · exact ih (fun y hy => h y (List.mem_cons_of_mem x hy)) r h1

theorem access_ne_refresh (n1 n2 : Int) (s1 s2 : String) (d1 d2 : Option Int) :
    create_access_token n1 s1 d1 ≠ create_refresh_token n2 s2 d2 := by
  intro h
  have hs := congrArg (fun j => j.payload.scope) h
  simp [create_access_token, create_refresh_token] at hs

/-- C7 counterexample: with one expired row (expires 1) and one unexpired row
(expires 10) stored and the sweep run at time 5, `delete_expired` removes
exactly the expired row but returns `None` (the Python function is annotated
`-> None` and has no return statement), not the claimed count 1. -/
theorem C7_counterexample_sweep_returns_none :
    (delete_expired 5 dbSweep).1.tokens = [rowFuture] ∧
    (delete_expired 5 dbSweep).2 = none ∧
    (delete_expired 5 dbSweep).2 ≠ some 1 := by
  decide

/-- C7 amended: `delete_expired` deletes exactly the token rows whose
`expires` is strictly in the past, leaves the remaining rows and the users
table unchanged, and returns `None` — no count of removed rows. -/
theorem C7_sweep_deletes_exactly_expired (now : Int) (db : Db) :
    (∀ r ∈ db.tokens, r.expires < now → r ∉ (delete_expired now db).1.tokens) ∧
    (∀ r ∈ db.tokens, ¬(r.expires < now) → r ∈ (delete_expired now db).1.tokens) ∧
    (∀ r ∈ (delete_expired now db).1.tokens, r ∈ db.tokens ∧ ¬(r.expires < now)) ∧
    (delete_expired now db).1.users = db.users ∧
    (delete_expired now db).2 = none := by
  refine ⟨?_, ?_, ?_, rfl, rfl⟩
  · intro r hr hexp hmem
    simp only [delete_expired, List.mem_filter] at hmem
    exact absurd hexp (by simpa using hmem.2)
  · intro r hr hexp
    simp only [delete_expired, List.mem_filter]
    exact ⟨hr, by simpa using hexp⟩
  · intro r hr
    simp only [delete_expired, List.mem_filter] at hr
    exact ⟨hr.1, by simpa using hr.2⟩

/-- C7 witness: at time 5, the expired row is gone, the unexpired row is kept,
and the return value is `None`. -/
theorem C7_sweep_witness :
    rowPast ∉ (delete_expired 5 dbSweep).1.tokens ∧
    rowFuture ∈ (delete_expired 5 dbSweep).1.tokens ∧
    (delete_expired 5 dbSweep).2 = none :=
  ⟨(C7_sweep_deletes_exactly_expired 5 dbSweep).1 rowPast (by decide) (by decide),
   (C7_sweep_deletes_exactly_expired 5 dbSweep).2.1 rowFuture (by decide) (by decide),
   (C7_sweep_deletes_exactly_expired 5 dbSweep).2.2.2.2⟩

/-- C8 counterexample: on a hash string passlib cannot identify,
`verify_password` raises `UnknownHashError` (there is no exception handler in
PasswordManager.verify_password), it does not return false. -/
theorem C8_counterexample_verify_raises_on_malformed :
    verify_password "password" (HashStr.malformed "not-a-hash") = .error .unknownHashError ∧
    verify_password "password" (HashStr.malformed "not-a-hash") ≠ .ok false := by
  decide

/-- C8 amended: `verify_password(password, hash)` returns true iff the password
matches when the stored hash is a well-formed bcrypt hash; on a hash string the
CryptContext cannot identify it raises passlib's UnknownHashError (which
propagates uncaught) instead of returning false. -/
theorem C8_verify_password_on_wellformed_iff (p p2 : String) (salt : Nat) (m : String) :
    (verify_password p (.bcrypt p2 salt) = .ok true ↔ p = p2) ∧
    (verify_password p (.bcrypt p2 salt) = .ok false ↔ p ≠ p2) ∧
    verify_password p (.malformed m) = .error .unknownHashError := by
  refine ⟨?_, ?_, rfl⟩
  · simp [verify_password]
  · simp [verify_password]

/-- C8 witness: matching and non-matching passwords against a well-formed hash,
and the raising behaviour on a malformed hash, at concrete inputs. -/
theorem C8_verify_password_witness :
    verify_password "correct" (.bcrypt "correct" 0) = .ok true ∧
    verify_password "wrong" (.bcrypt "correct" 0) = .ok false ∧
    verify_password "correct" (.malformed "zz") = .error .unknownHashError :=
  ⟨(C8_verify_password_on_wellformed_iff "correct" "correct" 0 "zz").1.mpr rfl,
   (C8_verify_password_on_wellformed_iff "wrong" "correct" 0 "zz").2.1.mpr (by decide),
   (C8_verify_password_on_wellformed_iff "correct" "correct" 0 "zz").2.2⟩

/-- C4: `login` performs its checks in exactly the order user lookup →
email-confirmed → password → banned, and for every input the failure returned
is the one of the first failing check: 401 INVALID_EMAIL (spec taxonomy
InvalidCredentials) when the user is absent, 401 EMAIL_NOT_CONFIRMED
(EmailNotConfirmed) when the email is unconfirmed — regardless of the
password —, 401 INVALID_PASSWORD (InvalidCredentials) on password mismatch —
regardless of the banned flag —, 403 USER_WAS_BANNED (UserBanned) when banned,
and success otherwise. -/
theorem C4_login_check_order (now : Int) (username password : String) (db : Db) :
    (get_user_by_email username db = none →
        login now username password db = .error (.http 401 .INVALID_EMAIL) ∧
        specTaxonomy .INVALID_EMAIL = .InvalidCredentials) ∧
    (∀ u, get_user_by_email username db = some u → u.email_confirmed = false →
        login now username password db = .error (.http 401 .EMAIL_NOT_CONFIRMED) ∧
        specTaxonomy .EMAIL_NOT_CONFIRMED = .EmailNotConfirmed) ∧
    (∀ u, get_user_by_email username db = some u → u.email_confirmed = true →
        verify_password password u.password = .ok false →
        login now username password db = .error (.http 401 .INVALID_PASSWORD) ∧
        specTaxonomy .INVALID_PASSWORD = .InvalidCredentials) ∧
    (∀ u, get_user_by_email username db = some u → u.email_confirmed = true →
        verify_password password u.password = .ok true → u.banned = true →
        login now username password db = .error (.http 403 .USER_WAS_BANNED) ∧
        specTaxonomy .USER_WAS_BANNED = .UserBanned) ∧
    (∀ u, get_user_by_email username db = some u → u.email_confirmed = true →
        verify_password password u.password = .ok true → u.banned = false →
        login now username password db =
          .ok (create_access_and_refresh_tokens now u db)) := by
  refine ⟨?_, ?_, ?_, ?_, ?_⟩
  · intro h; exact ⟨by simp [login, h], rfl⟩
  · intro u hu hc; exact ⟨by simp [login, hu, hc], rfl⟩
  · intro u hu hc hv; exact ⟨by simp [login, hu, hc, hv], rfl⟩
  · intro u hu hc hv hb; exact ⟨by simp [login, hu, hc, hv, hb], rfl⟩
  · intro u hu hc hv hb; simp [login, hu, hc, hv, hb]

/-- C4 witness: alice exists with a confirmed email, so a wrong password fails
the third check with 401 INVALID_PASSWORD, taxonomy InvalidCredentials. -/
theorem C4_login_witness :
    login 0 "alice@example.com" "wrong" dbW = .error (.http 401 .INVALID_PASSWORD) ∧
    specTaxonomy .INVALID_PASSWORD = .InvalidCredentials :=
  (C4_login_check_order 0 "alice@example.com" "wrong" dbW).2.2.1 alice
    (by decide) (by decide) (by decide)

/-- C5 counterexample: two failing credential requests — one whose subject
exists (alice with a wrong password) and one whose subject does not (bob) —
produce different caller-visible failures: login answers 401 INVALID_PASSWORD
versus 401 INVALID_EMAIL, and reset_password answers 404 USER_NOT_FOUND for the
unknown subject, so the responses reveal whether the subject existed. -/
theorem C5_counterexample_responses_reveal_subject :
    get_user_by_email "alice@example.com" dbW = some alice ∧
    get_user_by_email "bob@example.com" dbW = none ∧
    login 0 "alice@example.com" "wrong" dbW = .error (.http 401 .INVALID_PASSWORD) ∧
    login 0 "bob@example.com" "wrong" dbW = .error (.http 401 .INVALID_EMAIL) ∧
    reset_password "bob@example.com" dbW = .error (.http 404 .USER_NOT_FOUND) ∧
    (PyErr.http 401 .INVALID_PASSWORD ≠ PyErr.http 401 .INVALID_EMAIL) ∧
    (PyErr.http 401 .INVALID_PASSWORD ≠ PyErr.http 404 .USER_NOT_FOUND) := by
  decide

/-- C5 amended: failing credential requests do reveal whether the subject
existed: `login` answers 401 INVALID_EMAIL exactly when the email is unknown
and 401 INVALID_PASSWORD when the email is known but the password mismatches,
`reset_password` answers 404 USER_NOT_FOUND exactly when the email is unknown
and succeeds when it is known, and the two login failure details are distinct. -/
theorem C5_distinct_failures_leak_existence (now : Int) (username password : String) (db : Db) :
    (get_user_by_email username db = none →
        login now username password db = .error (.http 401 .INVALID_EMAIL) ∧
        reset_password username db = .error (.http 404 .USER_NOT_FOUND)) ∧
    (∀ u, get_user_by_email username db = some u → u.email_confirmed = true →
        verify_password password u.password = .ok false →
        login now username password db = .error (.http 401 .INVALID_PASSWORD) ∧
        reset_password username db = .ok "Check your email for password reset instructions.") ∧
    (PyErr.http 401 .INVALID_EMAIL ≠ PyErr.http 401 .INVALID_PASSWORD) := by
  refine ⟨?_, ?_, by decide⟩
  · intro h; exact ⟨by simp [login, h], by simp [reset_password, h]⟩
  · intro u hu hc hv
    exact ⟨by simp [login, hu, hc, hv], by simp [reset_password, hu]⟩

/-- C5 witness: the amended statement evaluated for the unknown subject bob and
the known subject alice with a wrong password. -/
theorem C5_leak_witness :
    (login 0 "bob@example.com" "pw" dbW = .error (.http 401 .INVALID_EMAIL) ∧
     reset_password "bob@example.com" dbW = .error (.http 404 .USER_NOT_FOUND)) ∧
    (login 0 "alice@example.com" "wrong" dbW = .error (.http 401 .INVALID_PASSWORD) ∧
     reset_password "alice@example.com" dbW =
       .ok "Check your email for password reset instructions.") :=
  ⟨(C5_distinct_failures_leak_existence 0 "bob@example.com" "pw" dbW).1 (by decide),
   (C5_distinct_failures_leak_existence 0 "alice@example.com" "wrong" dbW).2.1 alice
     (by decide) (by decide) (by decide)⟩

/-- C6: for every subject and every ttl > 0, decoding a freshly minted
refresh-scoped token at the refresh scope returns the subject, while decoding a
token minted with the other scope at the refresh scope fails with 401
INVALID_SCOPE — the signature (key and algorithm) being valid in both cases —
provided the token has not yet expired at decode time. -/
theorem C6_scope_check (sub : String) (mintNow decNow ttl : Int)
    (h1 : 0 < ttl) (h2 : ¬(mintNow + ttl < decNow)) :
    decode_refresh_token decNow (create_refresh_token mintNow sub (some ttl)) = .ok sub ∧
    decode_refresh_token decNow (create_access_token mintNow sub (some ttl)) =
      .error (.http 401 .INVALID_SCOPE) := by
  have hne : ttl ≠ 0 := by omega
  constructor
  · simp [decode_refresh_token, create_refresh_token, jwtDecode, pyOrDefault, hne, h2]
  · simp [decode_refresh_token, create_access_token, jwtDecode, pyOrDefault, hne, h2]

/-- C6 witness: minted at time 0 with ttl 60 and decoded at time 10. -/
theorem C6_scope_witness :
    decode_refresh_token 10 (create_refresh_token 0 "alice@example.com" (some 60)) =
      .ok "alice@example.com" ∧
    decode_refresh_token 10 (create_access_token 0 "alice@example.com" (some 60)) =
      .error (.http 401 .INVALID_SCOPE) :=
  C6_scope_check "alice@example.com" 0 10 60 (by decide) (by decide)

theorem findFirst_pair_append_keep {α : Type} (p : α → Prop) [DecidablePred p]
    (l : List α) (a b : α) (r : α) (h : findFirst p l = some r) :
    findFirst p ((l ++ [a]) ++ [b]) = some r :=
  findFirst_append_some p (l ++ [a]) [b] r (findFirst_append_some p l [a] r h)

theorem findFirst_pair_append {α : Type} (p : α → Prop) [DecidablePred p]
    (l : List α) (a b : α) (hl : findFirst p l = none) (ha : ¬ p a) (hb : p b) :
    findFirst p ((l ++ [a]) ++ [b]) = some b := by
  have h1 : findFirst p (l ++ [a]) = none := by
    rw [findFirst_append_none p l [a] hl]
    simp [findFirst, ha]
  rw [findFirst_append_none p (l ++ [a]) [b] h1]
  simp [findFirst, hb]

theorem findFirst_token_none_of_iat (l : List TokenRow) (now : Int) (t : Jwt)
    (hfresh : ∀ r ∈ l, r.token.payload.iat < now) (ht : t.payload.iat = now) :
    findFirst (fun r => r.token = t) l = none := by
  refine findFirst_eq_none _ l (fun r hr hEq => ?_)
  have h := hfresh r hr
  rw [hEq, ht] at h
  exact lt_irrefl now h

/-- C3 counterexample: for alice's stored refresh token R0w, the first
committed state of the refresh exchange at time 200 — the commit inside
`block_token`, which is a reachable durable state and not the final one —
already has the consumed token blocked while neither replacement token has
been persisted, so blocking and persisting do not happen in one atomic unit. -/
theorem C3_counterexample_intermediate_commit :
    (refresh_commit_states 200 alice R0w dbRot).head? = some (block_token R0w dbRot) ∧
    (refresh_commit_states 200 alice R0w dbRot).getLast? ≠ some (block_token R0w dbRot) ∧
    token_is_blocked R0w (block_token R0w dbRot) = true ∧
    get_token (create_access_token 200 alice.email none) (block_token R0w dbRot) = none ∧
    get_token (create_refresh_token 200 alice.email none) (block_token R0w dbRot) = none := by
  decide

/-- C3 amended: the refresh exchange commits in three separate transactions —
block-old, persist-access, persist-refresh, in that order — so the committed
state right after `block_token` has the consumed token blocked with neither
replacement persisted; only after the final commit are the old token blocked
and the replacement refresh token persisted together. -/
theorem C3_block_and_persist_in_separate_commits
    (u : User) (db : Db) (tok : Jwt) (now : Int) (row : TokenRow)
    (hrow : get_token tok db = some row)
    (hfresh : ∀ r ∈ db.tokens, r.token.payload.iat < now) :
    (refresh_commit_states now u tok db).head? = some (block_token tok db) ∧
    (refresh_commit_states now u tok db).getLast? = some (rotated_db now u tok db) ∧
    token_is_blocked tok (block_token tok db) = true ∧
    get_token (create_access_token now u.email none) (block_token tok db) = none ∧
    get_token (create_refresh_token now u.email none) (block_token tok db) = none ∧
    token_is_blocked tok (rotated_db now u tok db) = true ∧
    get_token (create_refresh_token now u.email none) (rotated_db now u tok db) =
      some { token := create_refresh_token now u.email none,
             expires := get_expire_date (create_refresh_token now u.email none),
             blocked := false, user_id := u.id } := by
  simp only [get_token] at hrow
  have hb := blockFirstToken_findFirst tok db.tokens row hrow
  have hpres := blockFirstToken_preserves tok db.tokens
    (fun j => j.payload.iat < now) hfresh
  have haccess : findFirst (fun r => r.token = create_access_token now u.email none)
      (blockFirstToken tok db.tokens) = none :=
    findFirst_token_none_of_iat (blockFirstToken tok db.tokens) now
      (create_access_token now u.email none) hpres rfl
  have hrefresh : findFirst (fun r => r.token = create_refresh_token now u.email none)
      (blockFirstToken tok db.tokens) = none :=
    findFirst_token_none_of_iat (blockFirstToken tok db.tokens) now
      (create_refresh_token now u.email none) hpres rfl
  refine ⟨rfl, rfl, ?_, ?_, ?_, ?_, ?_⟩
  · simp [token_is_blocked, get_token, block_token, hb]
  · simp [get_token, block_token, haccess]
  · simp [get_token, block_token, hrefresh]
  · simp only [rotated_db, create_access_and_refresh_tokens, add_token, block_token,
      token_is_blocked, get_token]
    rw [findFirst_pair_append_keep _ _ _ _ _ hb]
  · simp only [rotated_db, create_access_and_refresh_tokens, add_token, block_token, get_token]
    exact findFirst_pair_append _ _ _ _ hrefresh
      (fun hEq => access_ne_refresh now now u.email u.email none none hEq) rfl

/-- C3 witness for the amended statement: alice's stored refresh token at
time 200. -/
theorem C3_separate_commits_witness :
    token_is_blocked R0w (block_token R0w dbRot) = true ∧
    get_token (create_refresh_token 200 alice.email none) (block_token R0w dbRot) = none ∧
    token_is_blocked R0w (rotated_db 200 alice R0w dbRot) = true ∧
    get_token (create_refresh_token 200 alice.email none) (rotated_db 200 alice R0w dbRot) =
      some { token := create_refresh_token 200 alice.email none,
             expires := get_expire_date (create_refresh_token 200 alice.email none),
             blocked := false, user_id := alice.id } := by
  have h := C3_block_and_persist_in_separate_commits alice dbRot R0w 200 rowW
    (by decide) (by decide)
  exact ⟨h.2.2.1, h.2.2.2.2.1, h.2.2.2.2.2.1, h.2.2.2.2.2.2⟩

/-- C10: for a refresh request whose presented token has a stored, unblocked
record and decodes to some email, the handler returns a fresh pair or 401
INVALID_REFRESH_TOKEN when the user lookup by that email succeeds, but when the
lookup returns no user the handler hits the `db_token.user_id != user.id`
comparison with `user = None` and raises AttributeError — a Python error, not
one of the taxonomy failures. -/
theorem C10_refresh_none_user_deref
    (tok : Jwt) (db : Db) (now : Int) (row : TokenRow) (email : String)
    (hrow : get_token tok db = some row) (hnb : row.blocked = false)
    (hdec : decode_refresh_token now tok = .ok email) :
    (get_user_by_email email db = none →
        refresh_token now tok db = .error .attributeErrorNoneId) ∧
    (∀ u, get_user_by_email email db = some u →
        (row.user_id ≠ u.id ∧
         refresh_token now tok db = .error (.http 401 .INVALID_REFRESH_TOKEN)) ∨
        (row.user_id = u.id ∧
         refresh_token now tok db =
           .ok (create_access_and_refresh_tokens now u (block_token tok db)))) := by
  constructor
  · intro h; simp [refresh_token, hrow, hdec, h, hnb]
  · intro u hu
    by_cases hid : row.user_id = u.id
    · right; exact ⟨hid, by simp [refresh_token, hrow, hdec, hu, hnb, hid]⟩
    · left; exact ⟨hid, by simp [refresh_token, hrow, hdec, hu, hnb, hid]⟩

/-- C10 witness: R0w's row is stored and unblocked in dbOrphan but its owner
no longer exists, so the refresh handler raises AttributeError. -/
theorem C10_none_user_witness :
    refresh_token 200 R0w dbOrphan = .error .attributeErrorNoneId :=
  (C10_refresh_none_user_deref R0w dbOrphan 200 rowW "alice@example.com"
    (by decide) (by decide) (by decide)).1 (by decide)

/-- C1, code evaluated at the failing input: after `logout(user)` the Token
Store does mark the user's stored access token blocked, yet `get_current_user`
still authenticates that very token successfully — the Token Store check in
AuthService.get_current_user is commented out (src/src/services/auth.py:180-182),
so a previously issued, unexpired access token keeps working after logout,
contrary to the claim that every subsequent consuming operation rejects it. -/
theorem C1_logout_does_not_revoke_access_tokens
    (u : User) (db : Db) (tok : Jwt) (now : Int) (r : TokenRow)
    (hscope : tok.payload.scope = "access_token")
    (hsub : tok.payload.sub = some u.email)
    (hkey : tok.key = SECRET_KEY) (halg : tok.alg = ALGORITHM)
    (hexp : ¬(tok.payload.exp < now))
    (hu : get_user_by_email u.email db = some u)
    (hr : get_token tok db = some r) (hrid : r.user_id = u.id) :
    token_is_blocked tok (logout u db) = true ∧
    get_current_user now tok (logout u db) = .ok u := by
  constructor
  · have hmap := findFirst_map
      (fun x : TokenRow => if x.user_id = u.id then { x with blocked := true } else x)
      (fun x : TokenRow => x.token = tok)
      (fun x => by by_cases h : x.user_id = u.id <;> simp [h]) db.tokens
    simp only [get_token] at hr
    simp [token_is_blocked, logout, block_user_tokens, get_token, hmap, hr, hrid]
  · have hu2 : get_user_by_email u.email (logout u db) = some u := hu
    simp [get_current_user, jwtDecode, hkey, halg, hexp, hscope, hsub, hu2]

/-- C1 witness: alice logs out at time 200; her access token from time 100 is
blocked in the store yet still authenticates as alice. -/
theorem C1_logout_witness :
    token_is_blocked tokA (logout alice dbC1) = true ∧
    get_current_user 200 tokA (logout alice dbC1) = .ok alice :=
  C1_logout_does_not_revoke_access_tokens alice dbC1 tokA 200 rowA
    (by decide) (by decide) (by decide) (by decide) (by decide) (by decide)
    (by decide) (by decide)

/-- C9: the confirm-email and reset-password flows mint their tokens through
the same `create_email_token` call with the same "email_token" scope, so the
two token kinds are interchangeable: a token minted by the reset-password
mailer is accepted by the confirm-email endpoint (which then sets
`email_confirmed`), and a token minted by the verification mailer is accepted
by the reset-password endpoint (which then replaces the user's password). -/
theorem C9_email_token_flows_interchangeable
    (u : User) (db : Db) (mintNow useNow : Int) (newPwd : String) (salt : Nat)
    (hu : get_user_by_email u.email db = some u)
    (hid : get_user_by_id u.id db = some u)
    (hexp : ¬(mintNow + 7 * 24 * 60 * 60 < useNow)) :
    send_reset_password_email_token mintNow u = send_verification_email_token mintNow u ∧
    (confirmed_email useNow (send_reset_password_email_token mintNow u) db =
        .ok (confirm_email u.email db) ∧
      get_user_by_email u.email (confirm_email u.email db) =
        some { u with email_confirmed := true }) ∧
    (reset_password_verified_email useNow (send_verification_email_token mintNow u)
        newPwd salt db =
        .ok (newPwd, update_password u.id (get_password_hash newPwd salt) db) ∧
      get_user_by_id u.id (update_password u.id (get_password_hash newPwd salt) db) =
        some { u with password := .bcrypt newPwd salt }) := by
  have hle : useNow ≤ mintNow + 604800 := by omega
  refine ⟨rfl, ⟨?_, ?_⟩, ⟨?_, ?_⟩⟩
  · simp [confirmed_email, send_reset_password_email_token, get_email_from_token,
      create_email_token, jwtDecode, hle, hu]
  · have hmap := findFirst_map
      (fun x : User => if x.email = u.email then { x with email_confirmed := true } else x)
      (fun x : User => x.email = u.email)
      (fun x => by by_cases h : x.email = u.email <;> simp [h]) db.users
    simp only [get_user_by_email] at hu ⊢
    simp [confirm_email, hmap, hu]
  · simp [reset_password_verified_email, send_verification_email_token, get_email_from_token,
      create_email_token, jwtDecode, hle, hu, get_password_hash]
  · have hmap := findFirst_map
      (fun x : User => if x.id = u.id then { x with password := HashStr.bcrypt newPwd salt } else x)
      (fun x : User => x.id = u.id)
      (fun x => by by_cases h : x.id = u.id <;> simp [h]) db.users
    simp only [get_user_by_id] at hid ⊢
    simp [update_password, get_password_hash, hmap, hid]

/-- C9 witness: alice's reset token minted at time 0 confirms her email at
time 50, and her verification token replaces her password at time 50. -/
theorem C9_interchange_witness :
    send_reset_password_email_token 0 alice = send_verification_email_token 0 alice ∧
    (confirmed_email 50 (send_reset_password_email_token 0 alice) dbW =
        .ok (confirm_email alice.email dbW) ∧
      get_user_by_email alice.email (confirm_email alice.email dbW) =
        some { alice with email_confirmed := true }) ∧
    (reset_password_verified_email 50 (send_verification_email_token 0 alice) "npw" 7 dbW =
        .ok ("npw", update_password alice.id (get_password_hash "npw" 7) dbW) ∧
      get_user_by_id alice.id (update_password alice.id (get_password_hash "npw" 7) dbW) =
        some { alice with password := .bcrypt "npw" 7 }) :=
  C9_email_token_flows_interchangeable alice dbW 0 50 "npw" 7
    (by decide) (by decide) (by decide)

/-- C2: for a valid refresh token R0 — stored, unblocked, owner matching the
decoded subject's user, well-signed, unexpired, issued strictly before `now` —
the first `refresh(R0)` succeeds and returns the freshly minted pair (A1, R1)
with the rotated store; afterwards, while R0 is still unexpired, every further
`refresh(R0)` fails with 401 INVALID_REFRESH_TOKEN because R0's row is now
blocked, whereas `refresh(R1)` (while R1 is unexpired) still succeeds. -/
theorem C2_refresh_rotation
    (u : User) (db : Db) (R0 : Jwt) (row : TokenRow) (now : Int)
    (hu : get_user_by_email u.email db = some u)
    (hrow : get_token R0 db = some row)
    (hnb : row.blocked = false)
    (hid : row.user_id = u.id)
    (hkey : R0.key = SECRET_KEY) (halg : R0.alg = ALGORITHM)
    (hscope : R0.payload.scope = "refresh_token")
    (hsub : R0.payload.sub = some u.email)
    (hexp : ¬(R0.payload.exp < now))
    (hfresh : ∀ r ∈ db.tokens, r.token.payload.iat < now) :
    refresh_token now R0 db =
      .ok ({ access_token := create_access_token now u.email none,
             refresh_token := create_refresh_token now u.email none,
             token_type := "bearer" }, rotated_db now u R0 db) ∧
    (∀ now2, ¬(R0.payload.exp < now2) →
        refresh_token now2 R0 (rotated_db now u R0 db) =
          .error (.http 401 .INVALID_REFRESH_TOKEN)) ∧
    (∀ now3, ¬(now + 7 * 24 * 60 * 60 < now3) →
        refresh_token now3 (create_refresh_token now u.email none) (rotated_db now u R0 db) =
          .ok ({ access_token := create_access_token now3 u.email none,
                 refresh_token := create_refresh_token now3 u.email none,
                 token_type := "bearer" },
               rotated_db now3 u (create_refresh_token now u.email none)
                 (rotated_db now u R0 db))) := by
  have hget := hrow
  simp only [get_token] at hget
  have hb := blockFirstToken_findFirst R0 db.tokens row hget
  have hpres := blockFirstToken_preserves R0 db.tokens (fun j => j.payload.iat < now) hfresh
  refine ⟨?_, ?_, ?_⟩
  · have hdec : decode_refresh_token now R0 = .ok u.email := by
      simp [decode_refresh_token, jwtDecode, hkey, halg, hexp, hscope, hsub]
    simp [refresh_token, hrow, hdec, hu, hnb, hid, rotated_db,
      create_access_and_refresh_tokens, add_token]
  · intro now2 hexp2
    have hdec2 : decode_refresh_token now2 R0 = .ok u.email := by
      simp [decode_refresh_token, jwtDecode, hkey, halg, hexp2, hscope, hsub]
    have hget2 : get_token R0 (rotated_db now u R0 db) = some { row with blocked := true } := by
      simp only [rotated_db, create_access_and_refresh_tokens, add_token, block_token, get_token]
      exact findFirst_pair_append_keep _ _ _ _ _ hb
    simp [refresh_token, hget2, hdec2]
  · intro now3 hexp3
    have h604 : now3 ≤ now + 604800 := by omega
    have hdec3 : decode_refresh_token now3 (create_refresh_token now u.email none) =
        .ok u.email := by
      simp [decode_refresh_token, create_refresh_token, jwtDecode, pyOrDefault, h604]
    have hnone : findFirst (fun r => r.token = create_refresh_token now u.email none)
        (blockFirstToken R0 db.tokens) = none :=
      findFirst_token_none_of_iat (blockFirstToken R0 db.tokens) now
        (create_refresh_token now u.email none) hpres rfl
    have hget3 : get_token (create_refresh_token now u.email none) (rotated_db now u R0 db) =
        some { token := create_refresh_token now u.email none,
               expires := get_expire_date (create_refresh_token now u.email none),
               blocked := false, user_id := u.id } := by
      simp only [rotated_db, create_access_and_refresh_tokens, add_token, block_token, get_token]
      exact findFirst_pair_append _ _ _ _ hnone
        (fun hEq => access_ne_refresh now now u.email u.email none none hEq) rfl
    have hu3 : get_user_by_email u.email (rotated_db now u R0 db) = some u := hu
    simp only [refresh_token, hget3, hdec3, hu3]
    simp [rotated_db, create_access_and_refresh_tokens, add_token]

/-- C2 witness: alice's refresh token from time 100 rotates once at time 200;
replaying it at time 300 fails with 401 INVALID_REFRESH_TOKEN while the fresh
refresh token still rotates at time 300. -/
theorem C2_rotation_witness :
    refresh_token 200 R0w dbRot =
      .ok ({ access_token := create_access_token 200 alice.email none,
             refresh_token := create_refresh_token 200 alice.email none,
             token_type := "bearer" }, rotated_db 200 alice R0w dbRot) ∧
    refresh_token 300 R0w (rotated_db 200 alice R0w dbRot) =
      .error (.http 401 .INVALID_REFRESH_TOKEN) ∧
    refresh_token 300 (create_refresh_token 200 alice.email none)
        (rotated_db 200 alice R0w dbRot) =
      .ok ({ access_token := create_access_token 300 alice.email none,
             refresh_token := create_refresh_token 300 alice.email none,
             token_type := "bearer" },
           rotated_db 300 alice (create_refresh_token 200 alice.email none)
             (rotated_db 200 alice R0w dbRot)) := by
  have h := C2_refresh_rotation alice dbRot R0w rowW 200
    (by decide) (by decide) (by decide) (by decide) (by decide) (by decide)
    (by decide) (by decide) (by decide) (by decide)
  exact ⟨h.1, h.2.1 300 (by decide), h.2.2 300 (by decide)⟩

end PostsAuth
